import Mathlib

/-
Verification of the phase-gated project state machine, validation engine and
template generators of the Cloud-Native-Design repository.

The embedding mirrors the TypeScript source:
  - src/shared/schema.ts        : the data model (structures below)
  - src/server/routes.ts        : validation endpoint and the two template
                                  generators (Dockerfile, K8s manifest)
  - the project-store module    : canAdvanceToPhase and the per-collection
                                  add/update/remove mutation helpers
  - the database-storage module : updateProject (partial patch semantics)

JavaScript strings are modelled as Lean String (a list of characters);
JS template literals become explicit concatenations, Array.prototype.join
becomes jsJoin, String.prototype.replace (first occurrence, string pattern)
becomes jsReplace, and falsy-coalescing (x || d) is expanded at each use
site exactly as the source applies it.  Nondeterministic fresh identifiers
(generateId in the source, Date.now-based) decorate every validation
result identically and carry no information, so validation results are
embedded without the id field; timestamps are threaded as an explicit
`now` argument.
-/

set_option maxRecDepth 16384

/-! ### JS string primitives -/

/-- Model of Array.prototype.join: concatenate with a separator. -/
def jsJoin (sep : String) : List String → String
  | [] => ""
  | [x] => x
  | x :: y :: rest => x ++ sep ++ jsJoin sep (y :: rest)

/-- Character-list prefix test. -/
def strPrefixOf : List Char → List Char → Bool
  | [], _ => true
  | _ :: _, [] => false
  | a :: as, b :: bs => a == b && strPrefixOf as bs

/-- Character-list substring (infix) test. -/
def strInfixOf (pat : List Char) : List Char → Bool
  | [] => strPrefixOf pat []
  | b :: bs => strPrefixOf pat (b :: bs) || strInfixOf pat bs

/-- String substring test: does `s` contain `pat`? -/
def containsSub (s pat : String) : Bool :=
  strInfixOf pat.data s.data

/-- Number of positions of the character list at which `pat` starts. -/
def countOccL (pat : List Char) : List Char → Nat
  | [] => if strPrefixOf pat [] then 1 else 0
  | b :: bs => (if strPrefixOf pat (b :: bs) then 1 else 0) + countOccL pat bs

/-- Number of occurrences (possibly overlapping) of `pat` in `s`. -/
def countSub (s pat : String) : Nat :=
  countOccL pat.data s.data

/-- First-occurrence replacement on character lists, as in
JavaScript String.prototype.replace with a string pattern. -/
def replaceFirstL (pat rep : List Char) : List Char → List Char
  | [] => if strPrefixOf pat [] then rep else []
  | b :: bs =>
      if strPrefixOf pat (b :: bs) then rep ++ (b :: bs).drop pat.length
      else b :: replaceFirstL pat rep bs

/-- Model of JS `s.replace(pat, rep)` (string pattern: first occurrence only). -/
def jsReplace (s pat rep : String) : String :=
  String.mk (replaceFirstL pat.data rep.data s.data)

/-- Model of JS `s.toLowerCase()` (ASCII range suffices here). -/
def jsToLower (s : String) : String :=
  String.mk (s.data.map Char.toLower)

/-! ### Data model (src/shared/schema.ts) -/

/-- serviceSchema: a microservice definition (Phase A). -/
structure Service where
  id : String
  name : String
  description : String
  boundedContext : String
  responsibilities : List String
  dependencies : List String
  communicationType : String
  dataOwnership : List String
deriving DecidableEq

/-- boundedContextSchema: a DDD bounded context. -/
structure BoundedContext where
  id : String
  name : String
  description : String
  domainEvents : List String
  aggregates : List String
  services : List String
deriving DecidableEq

/-- Environment-variable entry of a ContainerConfig. -/
structure EnvVar where
  key : String
  value : String
  isSecret : Bool
deriving DecidableEq

/-- Optional health-check descriptor of a ContainerConfig. -/
structure HealthCheck where
  path : String
  port : Nat
  intervalSeconds : Nat
deriving DecidableEq

/-- Optional resource-limit descriptor of a ContainerConfig. -/
structure ResourceLimits where
  cpuLimit : String
  memoryLimit : String
  cpuRequest : String
  memoryRequest : String
deriving DecidableEq

/-- containerConfigSchema: container configuration (Phase B).
buildType is the string enum single-stage | multi-stage. -/
structure ContainerConfig where
  id : String
  serviceId : String
  baseImage : String
  buildType : String
  exposedPorts : List Nat
  environmentVariables : List EnvVar
  healthCheck : Option HealthCheck
  resourceLimits : Option ResourceLimits
deriving DecidableEq

/-- sloDefinitionSchema (Phase C). -/
structure SLODefinition where
  id : String
  serviceId : String
  metric : String
  target : Nat
  unit : String
  window : String
deriving DecidableEq

/-- autoscalingStrategySchema (Phase C). -/
structure AutoscalingStrategy where
  id : String
  serviceId : String
  type : String
  minReplicas : Nat
  maxReplicas : Nat
  targetMetric : String
  targetValue : Nat
deriving DecidableEq

/-- k8sManifestSchema (Phase C); the label and annotation maps are
insertion-ordered key/value lists. -/
structure K8sManifest where
  id : String
  serviceId : String
  deploymentStrategy : String
  replicas : Nat
  namespc : String
  labels : List (String × String)
  annotations : Option (List (String × String))
deriving DecidableEq

/-- resiliencePatternSchema (Phase D); config is an open key/value map. -/
structure ResiliencePattern where
  id : String
  serviceId : String
  type : String
  config : List (String × Nat)
  enabled : Bool
deriving DecidableEq

/-- Metrics sub-config of an ObservabilityConfig. -/
structure MetricsConfig where
  enabled : Bool
  endpoint : Option String
  scrapeInterval : Option String
deriving DecidableEq

/-- Logging sub-config of an ObservabilityConfig. -/
structure LoggingConfig where
  enabled : Bool
  level : String
  format : String
deriving DecidableEq

/-- Tracing sub-config of an ObservabilityConfig. -/
structure TracingConfig where
  enabled : Bool
  samplingRate : Option Nat
  exporter : Option String
deriving DecidableEq

/-- observabilityConfigSchema (Phase D). -/
structure ObservabilityConfig where
  id : String
  serviceId : String
  metrics : MetricsConfig
  logging : LoggingConfig
  tracing : TracingConfig
deriving DecidableEq

/-- architectureProjectSchema: the root aggregate with its eight
child collections. -/
structure ArchitectureProject where
  id : String
  name : String
  description : String
  currentPhase : String
  boundedContexts : List BoundedContext
  services : List Service
  containerConfigs : List ContainerConfig
  sloDefinitions : List SLODefinition
  autoscalingStrategies : List AutoscalingStrategy
  k8sManifests : List K8sManifest
  resiliencePatterns : List ResiliencePattern
  observabilityConfigs : List ObservabilityConfig
  createdAt : String
  updatedAt : String
deriving DecidableEq

/-- validationResultSchema, less the generated id: the id produced by
generateId in the source is a fresh nondeterministic token attached
uniformly to every result and carries no information. -/
structure VResult where
  phase : String
  category : String
  status : String
  message : String
  details : Option String
deriving DecidableEq

/-! ### Project store mutation layer (client project-context module) -/

/-- canAdvanceToPhase: the phase gate (false without an active project;
otherwise the per-phase reachability conditions, with a default branch).
Each mutation helper below inlines updateProjectLocal, which merges the
field update and restamps updatedAt with the current time (threaded here
as the `now` argument). -/
def canAdvanceToPhase (project : Option ArchitectureProject) (phase : String) : Bool :=
  match project with
  | none => false
  | some p =>
      if phase = "A" then true
      else if phase = "B" then decide (p.services.length > 0)
      else if phase = "C" then decide (p.containerConfigs.length > 0)
      else if phase = "D" then decide (p.k8sManifests.length > 0)
      else false

/-- addService: append to the services collection (updatedAt restamped). -/
def addService (now : String) (p : ArchitectureProject) (s : Service) :
    ArchitectureProject :=
  { p with services := p.services ++ [s], updatedAt := now }

/-- removeService: filter the services collection by id (updatedAt restamped). -/
def removeService (now : String) (p : ArchitectureProject) (id : String) :
    ArchitectureProject :=
  { p with services := p.services.filter (fun svc => svc.id != id), updatedAt := now }

/-- removeBoundedContext. -/
def removeBoundedContext (now : String) (p : ArchitectureProject) (id : String) :
    ArchitectureProject :=
  { p with boundedContexts := p.boundedContexts.filter (fun ctx => ctx.id != id), updatedAt := now }

/-- removeContainerConfig. -/
def removeContainerConfig (now : String) (p : ArchitectureProject) (id : String) :
    ArchitectureProject :=
  { p with containerConfigs := p.containerConfigs.filter (fun cfg => cfg.id != id), updatedAt := now }

/-- removeSLO. -/
def removeSLO (now : String) (p : ArchitectureProject) (id : String) :
    ArchitectureProject :=
  { p with sloDefinitions := p.sloDefinitions.filter (fun s => s.id != id), updatedAt := now }

/-- removeAutoscaling. -/
def removeAutoscaling (now : String) (p : ArchitectureProject) (id : String) :
    ArchitectureProject :=
  { p with autoscalingStrategies := p.autoscalingStrategies.filter (fun s => s.id != id), updatedAt := now }

/-- removeK8sManifest. -/
def removeK8sManifest (now : String) (p : ArchitectureProject) (id : String) :
    ArchitectureProject :=
  { p with k8sManifests := p.k8sManifests.filter (fun m => m.id != id), updatedAt := now }

/-- removeResiliencePattern. -/
def removeResiliencePattern (now : String) (p : ArchitectureProject) (id : String) :
    ArchitectureProject :=
  { p with resiliencePatterns := p.resiliencePatterns.filter (fun pt => pt.id != id), updatedAt := now }

/-- removeObservabilityConfig. -/
def removeObservabilityConfig (now : String) (p : ArchitectureProject) (id : String) :
    ArchitectureProject :=
  { p with observabilityConfigs := p.observabilityConfigs.filter (fun c => c.id != id), updatedAt := now }

/-! ### Validation engine (POST /api/validate in src/server/routes.ts) -/

/-- Phase A validation: service/bounded-context presence, orphan services,
circular-dependency scan.  The scan keeps the set of already recorded
edge keys exactly as the source does (string keys name + "->" + dep in a
JS Set, modelled by a list with membership). -/
def scanDeps (sname : String) : List String → List String → List VResult × List String
  | [], seen => ([], seen)
  | d :: rest, seen =>
      let key := sname ++ "->" ++ d
      let rev := d ++ "->" ++ sname
      let hit : List VResult :=
        if seen.contains rev then
          [{ phase := "A", category := "Dependencies", status := "error",
             message := "Circular dependency detected: " ++ sname ++ " <-> " ++ d,
             details := some "Consider using async communication or event-driven patterns" }]
        else []
      let next := scanDeps sname rest (key :: seen)
      (hit ++ next.1, next.2)

/-- Outer loop of the circular-dependency scan over all services. -/
def scanServices : List Service → List String → List VResult × List String
  | [], seen => ([], seen)
  | s :: rest, seen =>
      let r1 := scanDeps s.name s.dependencies seen
      let r2 := scanServices rest r1.2
      (r1.1 ++ r2.1, r2.2)

/-- Phase A rule set ("A" branch of the validation switch). -/
def validateA (p : ArchitectureProject) : List VResult :=
  let servicesGroup : List VResult :=
    if p.services.length = 0 then
      [{ phase := "A", category := "Services", status := "failed",
         message := "No services defined",
         details := some "Add at least one microservice to proceed" }]
    else
      [{ phase := "A", category := "Services", status := "passed",
         message := toString p.services.length ++ " services defined",
         details := none }]
  let contextsGroup : List VResult :=
    if p.boundedContexts.length = 0 then
      [{ phase := "A", category := "Bounded Contexts", status := "warning",
         message := "No bounded contexts defined",
         details := some "Consider grouping services into bounded contexts for better organization" }]
    else
      [{ phase := "A", category := "Bounded Contexts", status := "passed",
         message := toString p.boundedContexts.length ++ " bounded contexts defined",
         details := none }]
  let orphanServices := p.services.filter (fun s => s.boundedContext == "")
  let orphanGroup : List VResult :=
    if orphanServices.length > 0 then
      [{ phase := "A", category := "Service Assignment", status := "warning",
         message := toString orphanServices.length ++ " services not assigned to a bounded context",
         details := some "Assign services to bounded contexts for better domain organization" }]
    else []
  servicesGroup ++ contextsGroup ++ orphanGroup ++ (scanServices p.services []).1

/-- Phase B rule set ("B" branch of the validation switch). -/
def validateB (p : ArchitectureProject) : List VResult :=
  let configuredServices := p.containerConfigs.map (fun c => c.serviceId)
  let unconfigured := p.services.filter (fun s => !(configuredServices.contains s.id))
  let configGroup : List VResult :=
    if unconfigured.length > 0 then
      [{ phase := "B", category := "Configuration",
         status := if unconfigured.length = p.services.length then "failed" else "warning",
         message := toString unconfigured.length ++ " services not containerized",
         details := some ("Configure containers for: " ++
           jsJoin ", " (unconfigured.map (fun s => s.name))) }]
    else if p.containerConfigs.length > 0 then
      [{ phase := "B", category := "Configuration", status := "passed",
         message := "All services have container configurations",
         details := none }]
    else []
  let singleStage := p.containerConfigs.filter (fun c => c.buildType == "single-stage")
  let buildGroup : List VResult :=
    if singleStage.length > 0 then
      [{ phase := "B", category := "Build Optimization", status := "info",
         message := toString singleStage.length ++ " services using single-stage builds",
         details := some "Consider multi-stage builds for smaller production images" }]
    else []
  let noHealthCheck := p.containerConfigs.filter (fun c => c.healthCheck.isNone)
  let healthGroup : List VResult :=
    if noHealthCheck.length > 0 then
      [{ phase := "B", category := "Health Checks", status := "warning",
         message := toString noHealthCheck.length ++ " containers without health checks",
         details := some "Add health checks for better Kubernetes integration" }]
    else []
  configGroup ++ buildGroup ++ healthGroup

/-- Phase C rule set ("C" branch of the validation switch). -/
def validateC (p : ArchitectureProject) : List VResult :=
  let manifestGroup : List VResult :=
    if p.k8sManifests.length = 0 then
      [{ phase := "C", category := "Manifests", status := "failed",
         message := "No Kubernetes manifests defined",
         details := some "Generate deployment manifests to proceed" }]
    else
      [{ phase := "C", category := "Manifests", status := "passed",
         message := toString p.k8sManifests.length ++ " Kubernetes manifests configured",
         details := none }]
  let sloGroup : List VResult :=
    if p.sloDefinitions.length = 0 then
      [{ phase := "C", category := "SLOs", status := "warning",
         message := "No SLOs defined",
         details := some "Define service level objectives to track reliability" }]
    else []
  let autoscalingGroup : List VResult :=
    if p.autoscalingStrategies.length = 0 then
      [{ phase := "C", category := "Autoscaling", status := "info",
         message := "No autoscaling configured",
         details := some "Consider adding autoscaling for dynamic workloads" }]
    else []
  manifestGroup ++ sloGroup ++ autoscalingGroup

/-- Phase D rule set ("D" branch of the validation switch). -/
def validateD (p : ArchitectureProject) : List VResult :=
  let resilienceGroup : List VResult :=
    if p.resiliencePatterns.length = 0 then
      [{ phase := "D", category := "Resilience", status := "warning",
         message := "No resilience patterns configured",
         details := some "Add circuit breakers and retries for fault tolerance" }]
    else
      [{ phase := "D", category := "Resilience", status := "passed",
         message := toString p.resiliencePatterns.length ++ " resilience patterns configured",
         details := none }]
  let obsGroup : List VResult :=
    if p.observabilityConfigs.length = 0 then
      [{ phase := "D", category := "Observability", status := "warning",
         message := "No observability configured",
         details := some "Add metrics, logging, and tracing for operational visibility" }]
    else
      [{ phase := "D", category := "Observability", status := "passed",
         message := toString p.observabilityConfigs.length ++ " observability configurations",
         details := none }]
  resilienceGroup ++ obsGroup

/-- The switch over the phase token; a missing phase is `none`, and any
token other than A/B/C/D falls through to the implicit default (no
case runs, the accumulator list stays empty). -/
def validateFor (p : ArchitectureProject) (phase : Option String) : List VResult :=
  if phase = some "A" then validateA p
  else if phase = some "B" then validateB p
  else if phase = some "C" then validateC p
  else if phase = some "D" then validateD p
  else []

/-- POST /api/validate: 400 without a project payload, otherwise 200 with
the validation list. -/
def validateRoute (project : Option ArchitectureProject) (phase : Option String) :
    Nat × Option (List VResult) :=
  match project with
  | none => (400, none)
  | some p => (200, some (validateFor p phase))

/-! ### Persistence boundary (DatabaseStorage.updateProject and routes) -/

/-- A partial PATCH payload: any subset of name, description, currentPhase
and the eight collections. -/
structure ProjectPatch where
  name : Option String := none
  description : Option String := none
  currentPhase : Option String := none
  boundedContexts : Option (List BoundedContext) := none
  services : Option (List Service) := none
  containerConfigs : Option (List ContainerConfig) := none
  sloDefinitions : Option (List SLODefinition) := none
  autoscalingStrategies : Option (List AutoscalingStrategy) := none
  k8sManifests : Option (List K8sManifest) := none
  resiliencePatterns : Option (List ResiliencePattern) := none
  observabilityConfigs : Option (List ObservabilityConfig) := none
deriving DecidableEq

/-- Row lookup by primary key. -/
def findProject (db : List ArchitectureProject) (id : String) :
    Option ArchitectureProject :=
  db.find? (fun p => p.id == id)

/-- The update-set construction of DatabaseStorage.updateProject: updatedAt
is always restamped; every field present in the payload overwrites, every
field absent (undefined) is left unchanged. -/
def applyPatch (now : String) (p : ArchitectureProject) (u : ProjectPatch) :
    ArchitectureProject :=
  { id := p.id,
    name := u.name.getD p.name,
    description := u.description.getD p.description,
    currentPhase := u.currentPhase.getD p.currentPhase,
    boundedContexts := u.boundedContexts.getD p.boundedContexts,
    services := u.services.getD p.services,
    containerConfigs := u.containerConfigs.getD p.containerConfigs,
    sloDefinitions := u.sloDefinitions.getD p.sloDefinitions,
    autoscalingStrategies := u.autoscalingStrategies.getD p.autoscalingStrategies,
    k8sManifests := u.k8sManifests.getD p.k8sManifests,
    resiliencePatterns := u.resiliencePatterns.getD p.resiliencePatterns,
    observabilityConfigs := u.observabilityConfigs.getD p.observabilityConfigs,
    createdAt := p.createdAt,
    updatedAt := now }

/-- DatabaseStorage.updateProject: undefined when the id does not exist,
otherwise the patched row. -/
def storageUpdateProject (db : List ArchitectureProject) (id : String)
    (u : ProjectPatch) (now : String) : Option ArchitectureProject :=
  match findProject db id with
  | none => none
  | some p => some (applyPatch now p u)

/-- PATCH /api/projects/:id — 404 when the storage layer reports
not-found, 200 with the updated project otherwise. -/
def patchProjectRoute (db : List ArchitectureProject) (id : String)
    (u : ProjectPatch) (now : String) : Nat × Option ArchitectureProject :=
  match storageUpdateProject db id u now with
  | none => (404, none)
  | some q => (200, some q)

/-- POST /api/projects — the insertProjectSchema parse (name required and
non-empty) decides between a 400 validation failure and a 201 creation.
Only the status code matters to the claims. -/
def createProjectRouteStatus (nameField : Option String) : Nat :=
  match nameField with
  | none => 400
  | some n => if n.length = 0 then 400 else 201

/-! ### Dockerfile generator (POST /api/generate/dockerfile) -/

/-- Rendering of one environment-variable entry: secrets become a
comment pointing at external secrets management (the value is not
interpolated), non-secrets become a literal ENV assignment. -/
def envLine (e : EnvVar) : String :=
  if e.isSecret then "# " ++ e.key ++ " - Set via secrets management"
  else "ENV " ++ e.key ++ "=\"" ++ e.value ++ "\""

/-- The environment-variable section: one line per entry, input order. -/
def envBlock (envs : List EnvVar) : String :=
  jsJoin "\n" (envs.map envLine)

/-- The EXPOSE section: one line per exposed port, input order. -/
def portsBlock (ports : List Nat) : String :=
  jsJoin "\n" (ports.map (fun p => "EXPOSE " ++ toString p))

/-- The HEALTHCHECK directive, empty when no health check is configured. -/
def healthBlock (hc : Option HealthCheck) : String :=
  match hc with
  | none => ""
  | some h =>
      "HEALTHCHECK --interval=" ++ toString h.intervalSeconds ++ "s \\\n" ++
      "  CMD wget --quiet --tries=1 --spider http://localhost:" ++
      toString h.port ++ h.path ++ " || exit 1"

/-- The stage-2 base image of a multi-stage build:
baseImage.replace("-alpine", "-slim").replace("-slim", "-alpine"),
each replace acting on the first occurrence only. -/
def stage2Image (base : String) : String :=
  jsReplace (jsReplace base "-alpine" "-slim") "-slim" "-alpine"

/-- The generated Dockerfile as its list of template lines (the source
builds one template literal; joining these lines with a newline yields
that exact text).  baseImage falls back to node:20-alpine when falsy. -/
def dockerLines (cfg : ContainerConfig) (serviceName : String) : List String :=
  let baseImage := if cfg.baseImage = "" then "node:20-alpine" else cfg.baseImage
  if cfg.buildType = "multi-stage" then
    ["# Multi-stage build for " ++ serviceName,
     "# Stage 1: Build",
     "FROM " ++ baseImage ++ " AS builder",
     "WORKDIR /app",
     "COPY package*.json ./",
     "RUN npm ci --only=production",
     "COPY . .",
     "RUN npm run build",
     "",
     "# Stage 2: Production",
     "FROM " ++ stage2Image baseImage,
     "WORKDIR /app",
     "COPY --from=builder /app/dist ./dist",
     "COPY --from=builder /app/node_modules ./node_modules",
     "COPY package*.json ./",
     "",
     envBlock cfg.environmentVariables,
     "",
     portsBlock cfg.exposedPorts,
     "",
     healthBlock cfg.healthCheck,
     "",
     "USER node",
     "CMD [\"node\", \"dist/index.js\"]"]
  else
    ["# Single-stage build for " ++ serviceName,
     "FROM " ++ baseImage,
     "WORKDIR /app",
     "",
     "COPY package*.json ./",
     "RUN npm ci --only=production",
     "",
     "COPY . .",
     "",
     envBlock cfg.environmentVariables,
     "",
     portsBlock cfg.exposedPorts,
     "",
     healthBlock cfg.healthCheck,
     "",
     "USER node",
     "CMD [\"node\", \"index.js\"]"]

/-- The generated Dockerfile text. -/
def genDockerfile (cfg : ContainerConfig) (serviceName : String) : String :=
  jsJoin "\n" (dockerLines cfg serviceName)

/-! ### K8s manifest generator (POST /api/generate/k8s-manifest) -/

/-- JS falsy-coalescing for an optional string chain (x || d). -/
def jsOrStr (x : Option String) (d : String) : String :=
  match x with
  | none => d
  | some s => if s = "" then d else s

/-- JS falsy-coalescing for an optional number chain (x || d). -/
def jsOrNat (x : Option Nat) (d : Nat) : Nat :=
  match x with
  | none => d
  | some n => if n = 0 then d else n

/-- Object-spread merge { ...labels, app: v }: an existing app key keeps
its position and is overwritten, otherwise app is appended. -/
def mergeAppLabel (labels : List (String × String)) (v : String) :
    List (String × String) :=
  if labels.any (fun kv => kv.1 == "app") then
    labels.map (fun kv => if kv.1 = "app" then (kv.1, v) else kv)
  else labels ++ [("app", v)]

/-- The generated manifest as its list of template lines; joining with a
newline yields the exact template-literal text of the source.  The
falsy fallbacks (namespace, replicas, strategy, port, resources) are
expanded exactly where the source applies them. -/
def k8sLines (m : K8sManifest) (serviceName : String)
    (cfgOpt : Option ContainerConfig) : List String :=
  let lower := jsToLower serviceName
  let ns := if m.namespc = "" then "default" else m.namespc
  let reps := if m.replicas = 0 then 3 else m.replicas
  let strat := if m.deploymentStrategy = "" then "RollingUpdate" else m.deploymentStrategy
  let firstPort := jsOrNat (cfgOpt.bind (fun c => c.exposedPorts.head?)) 3000
  let limits := cfgOpt.bind (fun c => c.resourceLimits)
  let cpuReq := jsOrStr (limits.map (fun r => r.cpuRequest)) "100m"
  let memReq := jsOrStr (limits.map (fun r => r.memoryRequest)) "128Mi"
  let cpuLim := jsOrStr (limits.map (fun r => r.cpuLimit)) "500m"
  let memLim := jsOrStr (limits.map (fun r => r.memoryLimit)) "512Mi"
  let labelsBlock := jsJoin "\n" ((mergeAppLabel m.labels lower).map
    (fun kv => "    " ++ kv.1 ++ ": \"" ++ kv.2 ++ "\""))
  let rollingHole :=
    if m.deploymentStrategy = "RollingUpdate" then
      "    rollingUpdate:\n      maxSurge: 25%\n      maxUnavailable: 25%"
    else ""
  let probeHole :=
    match cfgOpt with
    | none => ""
    | some c =>
        match c.healthCheck with
        | none => ""
        | some h =>
            "        livenessProbe:\n          httpGet:\n            path: " ++
            h.path ++ "\n            port: " ++ toString h.port ++
            "\n          initialDelaySeconds: 15\n          periodSeconds: " ++
            toString h.intervalSeconds ++
            "\n        readinessProbe:\n          httpGet:\n            path: " ++
            h.path ++ "\n            port: " ++ toString h.port ++
            "\n          initialDelaySeconds: 5\n          periodSeconds: 10"
  ["apiVersion: apps/v1",
   "kind: Deployment",
   "metadata:",
   "  name: " ++ lower,
   "  namespace: " ++ ns,
   "  labels:",
   labelsBlock,
   "spec:",
   "  replicas: " ++ toString reps,
   "  selector:",
   "    matchLabels:",
   "      app: " ++ lower,
   "  strategy:",
   "    type: " ++ strat,
   rollingHole,
   "  template:",
   "    metadata:",
   "      labels:",
   "        app: " ++ lower,
   "    spec:",
   "      containers:",
   "      - name: " ++ lower,
   "        image: " ++ lower ++ ":latest",
   "        ports:",
   "        - containerPort: " ++ toString firstPort,
   "        resources:",
   "          requests:",
   "            cpu: " ++ cpuReq,
   "            memory: " ++ memReq,
   "          limits:",
   "            cpu: " ++ cpuLim,
   "            memory: " ++ memLim,
   probeHole,
   "---",
   "apiVersion: v1",
   "kind: Service",
   "metadata:",
   "  name: " ++ lower ++ "-svc",
   "  namespace: " ++ ns,
   "spec:",
   "  selector:",
   "    app: " ++ lower,
   "  ports:",
   "  - port: 80",
   "    targetPort: " ++ toString firstPort,
   "  type: ClusterIP"]

/-- The generated deployment + service YAML text. -/
def genK8sManifest (m : K8sManifest) (serviceName : String)
    (cfgOpt : Option ContainerConfig) : String :=
  jsJoin "\n" (k8sLines m serviceName cfgOpt)

/-! ### Shared sample data for witnesses -/

/-- A minimal service used by concrete witnesses. -/
def sampleService (nm : String) (deps : List String) : Service :=
  { id := "id-" ++ nm, name := nm, description := "", boundedContext := "",
    responsibilities := [], dependencies := deps,
    communicationType := "sync", dataOwnership := [] }

/-- An empty project used by concrete witnesses. -/
def sampleEmptyProject : ArchitectureProject :=
  { id := "p1", name := "Demo", description := "", currentPhase := "A",
    boundedContexts := [], services := [], containerConfigs := [],
    sloDefinitions := [], autoscalingStrategies := [], k8sManifests := [],
    resiliencePatterns := [], observabilityConfigs := [],
    createdAt := "2024-01-01T00:00:00.000Z",
    updatedAt := "2024-01-01T00:00:00.000Z" }

/-- The unconfigured services in the sense of the spec: those with no
container config whose serviceId matches their id. -/
def specUnconfigured (p : ArchitectureProject) : List Service :=
  p.services.filter
    (fun s => !((p.containerConfigs.map (fun c => c.serviceId)).contains s.id))
/-- The error result the circular-dependency scan pushes for the pair
(sname, d), exactly as the source builds it. -/
def circularResult (sname d : String) : VResult :=
  { phase := "A", category := "Dependencies", status := "error",
    message := "Circular dependency detected: " ++ sname ++ " <-> " ++ d,
    details := some "Consider using async communication or event-driven patterns" }
/-- Replace the value of a secret entry (used to state that secret values
never flow into the rendered text). -/
def eraseSecretValue (e : EnvVar) : EnvVar :=
  if e.isSecret then { e with value := "" } else e

/-- A config whose only env var is a secret whose value happens to also
occur in the fixed template text (it collides with /app). -/
def sampleSecretConfig : ContainerConfig :=
  { id := "c4", serviceId := "s1", baseImage := "node:20-alpine",
    buildType := "single-stage", exposedPorts := [3000],
    environmentVariables := [{ key := "API_TOKEN", value := "app", isSecret := true }],
    healthCheck := none, resourceLimits := none }
/-- A manifest whose replicas, namespace and strategy are all falsy. -/
def sampleFalsyManifest : K8sManifest :=
  { id := "m0", serviceId := "s1", deploymentStrategy := "", replicas := 0,
    namespc := "", labels := [], annotations := none }
/-- A multi-stage config whose base image ends in -alpine. -/
def sampleAlpineConfig : ContainerConfig :=
  { id := "c1", serviceId := "s1", baseImage := "node:20-alpine",
    buildType := "multi-stage", exposedPorts := [3000],
    environmentVariables := [], healthCheck := none, resourceLimits := none }
/-- A config with a health check (interval 30, port 8080). -/
def sampleHCConfig : ContainerConfig :=
  { id := "c2", serviceId := "s1", baseImage := "node:20-alpine",
    buildType := "multi-stage", exposedPorts := [3000],
    environmentVariables := [],
    healthCheck := some { path := "/health", port := 8080, intervalSeconds := 30 },
    resourceLimits := none }

/-- A manifest with a non-rolling strategy and nothing falsy. -/
def sampleHCManifest : K8sManifest :=
  { id := "m2", serviceId := "s1", deploymentStrategy := "Recreate",
    replicas := 2, namespc := "prod", labels := [], annotations := none }

/-! ### Basic lemmas about the string primitives -/

theorem strData_append (a b : String) : (a ++ b).data = a.data ++ b.data := rfl

theorem strAppend_assoc (a b c : String) : a ++ b ++ c = a ++ (b ++ c) := by
  cases a with
  | mk la =>
    cases b with
    | mk lb =>
      cases c with
      | mk lc =>
        show String.mk (la ++ lb ++ lc) = String.mk (la ++ (lb ++ lc))
        rw [List.append_assoc]

theorem strPrefixOf_self_append (p q : List Char) :
    strPrefixOf p (p ++ q) = true := by
  induction p with
  | nil => rfl
  | cons a as ih => simp [strPrefixOf, ih]

theorem strInfixOf_of_head {p s : List Char}
    (h : strPrefixOf p s = true) : strInfixOf p s = true := by
  cases s with
  | nil => simpa [strInfixOf] using h
  | cons b bs => simp [strInfixOf, h]

theorem strInfixOf_append_right {p ys : List Char} (xs : List Char)
    (h : strInfixOf p ys = true) : strInfixOf p (xs ++ ys) = true := by
  induction xs with
  | nil => simpa using h
  | cons a as ih =>
      show strInfixOf p (a :: (as ++ ys)) = true
      simp [strInfixOf, ih]

theorem strInfixOf_append_middle (xs p ys : List Char) :
    strInfixOf p (xs ++ (p ++ ys)) = true :=
  strInfixOf_append_right xs
    (strInfixOf_of_head (strPrefixOf_self_append p ys))

theorem containsSub_of_decomp {s pat : String} (x y : String)
    (h : s = x ++ (pat ++ y)) : containsSub s pat = true := by
  subst h
  show strInfixOf pat.data (x.data ++ (pat.data ++ y.data)) = true
  exact strInfixOf_append_middle x.data pat.data y.data

/-- Every member of a joined list occurs in the join. -/
theorem jsJoin_mem_decomp (sep : String) {l : String} :
    ∀ {ls : List String}, l ∈ ls → ∃ x y, jsJoin sep ls = x ++ (l ++ y)
  | [], h => absurd h (List.not_mem_nil l)
  | [z], h => by
      rcases List.mem_singleton.mp h with rfl
      exact ⟨"", "", by simp [jsJoin]⟩
  | z :: w :: rest, h => by
      rcases List.mem_cons.mp h with h1 | h2
      · subst h1
        exact ⟨"", sep ++ jsJoin sep (w :: rest), by
          simp [jsJoin, strAppend_assoc]⟩
      · obtain ⟨x, y, hxy⟩ := jsJoin_mem_decomp sep h2
        refine ⟨z ++ sep ++ x, y, ?_⟩
        rw [jsJoin, hxy, strAppend_assoc (z ++ sep) x (l ++ y)]

theorem containsSub_jsJoin (sep : String) {ls : List String} {l : String}
    (h : l ∈ ls) : containsSub (jsJoin sep ls) l = true := by
  obtain ⟨x, y, hxy⟩ := jsJoin_mem_decomp sep h
  exact containsSub_of_decomp x y hxy

theorem containsSub_trans {a b c : String}
    (h1 : containsSub a b = true) (h2 : containsSub b c = true) :
    containsSub a c = true := by
  have decomp : ∀ (p s : List Char), strInfixOf p s = true →
      ∃ x y, s = x ++ (p ++ y) := by
    intro p s
    induction s with
    | nil =>
        intro h
        cases p with
        | nil => exact ⟨[], [], rfl⟩
        | cons a as => simp [strInfixOf, strPrefixOf] at h
    | cons b bs ih =>
        intro h
        simp only [strInfixOf, Bool.or_eq_true] at h
        rcases h with h | h
        · -- prefix at the head
          have pref : ∀ (p t : List Char), strPrefixOf p t = true →
              ∃ y, t = p ++ y := by
            intro p
            induction p with
            | nil => exact fun t _ => ⟨t, rfl⟩
            | cons a as ihp =>
                intro t ht
                cases t with
                | nil => simp [strPrefixOf] at ht
                | cons c cs =>
                    simp only [strPrefixOf, Bool.and_eq_true, beq_iff_eq] at ht
                    obtain ⟨y, hy⟩ := ihp cs ht.2
                    exact ⟨y, by rw [ht.1, hy]; rfl⟩
          obtain ⟨y, hy⟩ := pref p (b :: bs) h
          exact ⟨[], y, by simpa using hy⟩
        · obtain ⟨x, y, hxy⟩ := ih h
          exact ⟨b :: x, y, by rw [hxy]; rfl⟩
  obtain ⟨x, y, hxy⟩ := decomp b.data a.data h1
  obtain ⟨x2, y2, hxy2⟩ := decomp c.data b.data h2
  show strInfixOf c.data a.data = true
  rw [hxy, hxy2]
  have : x ++ (x2 ++ (c.data ++ y2) ++ y)
      = (x ++ x2) ++ (c.data ++ (y2 ++ y)) := by simp
  rw [this]
  exact strInfixOf_append_middle (x ++ x2) c.data (y2 ++ y)

/-! ### Additional string helpers for the theorems -/

theorem strAppend_empty (a : String) : a ++ "" = a := by
  cases a with
  | mk l =>
      show String.mk (l ++ []) = String.mk l
      rw [List.append_nil]

/-! ### C3: the phase gate -/

/-- C3: canAdvanceToPhase is true for target A; true for B iff services is
non-empty; true for C iff containerConfigs is non-empty; true for D iff
k8sManifests is non-empty; false for any other token; and on a project
with no services the gate for B flips to true after adding one service
and back to false after removing it. -/
theorem canAdvance_phase_gate (p : ArchitectureProject) (phase : String)
    (s : Service) (t t2 : String) :
    canAdvanceToPhase (some p) "A" = true
    ∧ (canAdvanceToPhase (some p) "B" = true ↔ p.services ≠ [])
    ∧ (canAdvanceToPhase (some p) "C" = true ↔ p.containerConfigs ≠ [])
    ∧ (canAdvanceToPhase (some p) "D" = true ↔ p.k8sManifests ≠ [])
    ∧ (phase ≠ "A" → phase ≠ "B" → phase ≠ "C" → phase ≠ "D" →
        canAdvanceToPhase (some p) phase = false)
    ∧ (p.services = [] →
        canAdvanceToPhase (some p) "B" = false
        ∧ canAdvanceToPhase (some (addService t p s)) "B" = true
        ∧ canAdvanceToPhase (some (removeService t2 (addService t p s) s.id)) "B" = false) := by
  refine ⟨rfl, ?_, ?_, ?_, ?_, ?_⟩
  · simp [canAdvanceToPhase, List.length_pos]
  · simp [canAdvanceToPhase, List.length_pos]
  · simp [canAdvanceToPhase, List.length_pos]
  · intro h1 h2 h3 h4
    simp [canAdvanceToPhase, h1, h2, h3, h4]
  · intro hserv
    refine ⟨?_, ?_, ?_⟩
    · simp [canAdvanceToPhase, hserv]
    · simp [canAdvanceToPhase, addService, hserv]
    · simp [canAdvanceToPhase, addService, removeService, hserv]

/-- C3 witness: the gate evaluated on a concrete empty project, a concrete
unknown token and a concrete service. -/
theorem canAdvance_phase_gate_witness :
    canAdvanceToPhase (some sampleEmptyProject) "E" = false
    ∧ canAdvanceToPhase (some sampleEmptyProject) "B" = false
    ∧ canAdvanceToPhase
        (some (addService "t1" sampleEmptyProject (sampleService "svc" []))) "B" = true
    ∧ canAdvanceToPhase
        (some (removeService "t2"
          (addService "t1" sampleEmptyProject (sampleService "svc" []))
          (sampleService "svc" []).id)) "B" = false := by
  have h := canAdvance_phase_gate sampleEmptyProject "E"
    (sampleService "svc" []) "t1" "t2"
  have hs : sampleEmptyProject.services = [] := rfl
  refine ⟨h.2.2.2.2.1 (by decide) (by decide) (by decide) (by decide), ?_, ?_, ?_⟩
  · exact (h.2.2.2.2.2 hs).1
  · exact (h.2.2.2.2.2 hs).2.1
  · exact (h.2.2.2.2.2 hs).2.2

/-! ### C7: removing a non-existent id is a no-op apart from updatedAt -/

/-- C7: for each of the eight collections, removing an id that no member
of that collection carries returns the input project with only updatedAt
restamped. -/
theorem remove_missing_id_noop (p : ArchitectureProject) (id now : String) :
    ((∀ x ∈ p.boundedContexts, x.id ≠ id) →
      removeBoundedContext now p id = { p with updatedAt := now })
    ∧ ((∀ x ∈ p.services, x.id ≠ id) →
      removeService now p id = { p with updatedAt := now })
    ∧ ((∀ x ∈ p.containerConfigs, x.id ≠ id) →
      removeContainerConfig now p id = { p with updatedAt := now })
    ∧ ((∀ x ∈ p.sloDefinitions, x.id ≠ id) →
      removeSLO now p id = { p with updatedAt := now })
    ∧ ((∀ x ∈ p.autoscalingStrategies, x.id ≠ id) →
      removeAutoscaling now p id = { p with updatedAt := now })
    ∧ ((∀ x ∈ p.k8sManifests, x.id ≠ id) →
      removeK8sManifest now p id = { p with updatedAt := now })
    ∧ ((∀ x ∈ p.resiliencePatterns, x.id ≠ id) →
      removeResiliencePattern now p id = { p with updatedAt := now })
    ∧ ((∀ x ∈ p.observabilityConfigs, x.id ≠ id) →
      removeObservabilityConfig now p id = { p with updatedAt := now }) := by
  refine ⟨?_, ?_, ?_, ?_, ?_, ?_, ?_, ?_⟩ <;>
    · intro h
      first
      | exact congrArg _ (List.filter_eq_self.mpr
          (fun a ha => bne_iff_ne.mpr (h a ha)))
      | (show _ = _
         simp only [removeBoundedContext, removeService, removeContainerConfig,
           removeSLO, removeAutoscaling, removeK8sManifest,
           removeResiliencePattern, removeObservabilityConfig]
         rw [List.filter_eq_self.mpr (fun a ha => bne_iff_ne.mpr (h a ha))])

/-- C7 witness: removing an id that is nowhere in the empty project. -/
theorem remove_missing_id_noop_witness :
    removeService "t3" sampleEmptyProject "ghost" =
      { sampleEmptyProject with updatedAt := "t3" } :=
  (remove_missing_id_noop sampleEmptyProject "ghost" "t3").2.1
    (by intro x hx; cases hx)

/-! ### C9: unknown or missing phase token yields an empty validation list -/

/-- C9: the validation endpoint, given a project and a phase token outside
A/B/C/D (or no phase at all), succeeds (HTTP 200) with an empty
validation list. -/
theorem validate_unknown_phase_empty (p : ArchitectureProject)
    (phase : Option String)
    (h1 : phase ≠ some "A") (h2 : phase ≠ some "B")
    (h3 : phase ≠ some "C") (h4 : phase ≠ some "D") :
    validateRoute (some p) phase = (200, some []) := by
  simp [validateRoute, validateFor, h1, h2, h3, h4]

/-- C9 witness: a concrete project with a missing phase and with the
unknown token E. -/
theorem validate_unknown_phase_empty_witness :
    validateRoute (some sampleEmptyProject) none = (200, some [])
    ∧ validateRoute (some sampleEmptyProject) (some "E") = (200, some []) :=
  ⟨validate_unknown_phase_empty sampleEmptyProject none
      (by decide) (by decide) (by decide) (by decide),
   validate_unknown_phase_empty sampleEmptyProject (some "E")
      (by decide) (by decide) (by decide) (by decide)⟩

/-! ### C8: patch semantics at the persistence boundary -/

/-- C8: patching a missing id is a not-found outcome (404 from the route,
undefined from storage) that no validation-failure path produces (the
create-route parse failure is 400, never 404); patching an existing
project restamps updatedAt and leaves every omitted field unchanged, for
any subset of the eight collections plus name, description and
currentPhase. -/
theorem patch_partial_update_spec (db : List ArchitectureProject)
    (id now : String) (u : ProjectPatch) :
    (findProject db id = none →
      storageUpdateProject db id u now = none
      ∧ patchProjectRoute db id u now = (404, none)
      ∧ ∀ nameField, createProjectRouteStatus nameField ≠ 404)
    ∧ (∀ p0, findProject db id = some p0 →
        storageUpdateProject db id u now = some (applyPatch now p0 u)
        ∧ (applyPatch now p0 u).id = p0.id
        ∧ (applyPatch now p0 u).createdAt = p0.createdAt
        ∧ (applyPatch now p0 u).updatedAt = now
        ∧ (u.name = none → (applyPatch now p0 u).name = p0.name)
        ∧ (u.description = none → (applyPatch now p0 u).description = p0.description)
        ∧ (u.currentPhase = none → (applyPatch now p0 u).currentPhase = p0.currentPhase)
        ∧ (u.boundedContexts = none →
            (applyPatch now p0 u).boundedContexts = p0.boundedContexts)
        ∧ (u.services = none → (applyPatch now p0 u).services = p0.services)
        ∧ (u.containerConfigs = none →
            (applyPatch now p0 u).containerConfigs = p0.containerConfigs)
        ∧ (u.sloDefinitions = none →
            (applyPatch now p0 u).sloDefinitions = p0.sloDefinitions)
        ∧ (u.autoscalingStrategies = none →
            (applyPatch now p0 u).autoscalingStrategies = p0.autoscalingStrategies)
        ∧ (u.k8sManifests = none → (applyPatch now p0 u).k8sManifests = p0.k8sManifests)
        ∧ (u.resiliencePatterns = none →
            (applyPatch now p0 u).resiliencePatterns = p0.resiliencePatterns)
        ∧ (u.observabilityConfigs = none →
            (applyPatch now p0 u).observabilityConfigs = p0.observabilityConfigs)) := by
  constructor
  · intro hnone
    refine ⟨?_, ?_, ?_⟩
    · simp [storageUpdateProject, hnone]
    · simp [patchProjectRoute, storageUpdateProject, hnone]
    · intro nameField
      cases nameField with
      | none => simp [createProjectRouteStatus]
      | some n =>
          simp only [createProjectRouteStatus]
          split <;> omega
  · intro p0 hsome
    refine ⟨by simp [storageUpdateProject, hsome], rfl, rfl, rfl,
      ?_, ?_, ?_, ?_, ?_, ?_, ?_, ?_, ?_, ?_, ?_⟩ <;>
      · intro hnone
        simp [applyPatch, hnone]

/-- C8 witness: a singleton database, a ghost id, and a patch that only
replaces the name. -/
theorem patch_partial_update_spec_witness :
    storageUpdateProject [sampleEmptyProject] "ghost"
      { name := some "Renamed" } "t4" = none
    ∧ (applyPatch "t4" sampleEmptyProject { name := some "Renamed" }).services
        = sampleEmptyProject.services
    ∧ (applyPatch "t4" sampleEmptyProject { name := some "Renamed" }).description
        = sampleEmptyProject.description := by
  have h1 := (patch_partial_update_spec [sampleEmptyProject] "ghost" "t4"
    { name := some "Renamed" }).1 (by decide)
  have h2 := (patch_partial_update_spec [sampleEmptyProject] "p1" "t4"
    { name := some "Renamed" }).2 sampleEmptyProject (by decide)
  exact ⟨h1.1, (h2.2.2.2.2.2.2.2.2.1) rfl, (h2.2.2.2.2.2.1) rfl⟩

/-! ### C10: falsy manifest fields are replaced by fixed fallbacks -/

/-- C10: the manifest generator silently replaces falsy fields by fixed
fallbacks: replicas = 0 renders replicas 3, an empty namespace renders
the default namespace, and an empty deployment strategy renders strategy
type RollingUpdate. -/
theorem k8s_falsy_fallbacks (m : K8sManifest) (name : String)
    (cfgOpt : Option ContainerConfig)
    (h0 : m.replicas = 0) (h1 : m.namespc = "") (h2 : m.deploymentStrategy = "") :
    containsSub (genK8sManifest m name cfgOpt) "replicas: 3" = true
    ∧ containsSub (genK8sManifest m name cfgOpt) "namespace: default" = true
    ∧ containsSub (genK8sManifest m name cfgOpt) "type: RollingUpdate" = true := by
  refine ⟨?_, ?_, ?_⟩
  · have hmem : ("  replicas: " ++ toString (3:Nat)) ∈ k8sLines m name cfgOpt := by
      simp only [k8sLines, h0]
      repeat first
      | exact List.mem_cons_self _ _
      | apply List.mem_cons_of_mem
    exact containsSub_trans (containsSub_jsJoin "\n" hmem) (by decide)
  · have hmem : ("  namespace: " ++ "default") ∈ k8sLines m name cfgOpt := by
      simp only [k8sLines, h1]
      repeat first
      | exact List.mem_cons_self _ _
      | apply List.mem_cons_of_mem
    exact containsSub_trans (containsSub_jsJoin "\n" hmem) (by decide)
  · have hmem : ("    type: " ++ "RollingUpdate") ∈ k8sLines m name cfgOpt := by
      simp only [k8sLines, h2]
      repeat first
      | exact List.mem_cons_self _ _
      | apply List.mem_cons_of_mem
    exact containsSub_trans (containsSub_jsJoin "\n" hmem) (by decide)

/-- C10 witness: the fallbacks fire on a concrete all-falsy manifest. -/
theorem k8s_falsy_fallbacks_witness :
    containsSub (genK8sManifest sampleFalsyManifest "Web" none) "replicas: 3" = true
    ∧ containsSub (genK8sManifest sampleFalsyManifest "Web" none) "namespace: default" = true
    ∧ containsSub (genK8sManifest sampleFalsyManifest "Web" none) "type: RollingUpdate" = true :=
  k8s_falsy_fallbacks sampleFalsyManifest "Web" none rfl rfl rfl

/-! ### C6: phase B configuration partition -/

/-- C6: phase B emits exactly one Configuration-category result — failed
when every service is unconfigured, warning when only some are, passed
when none are and at least one config exists — and a one-service project
with no configs yields exactly one result in total, a failed one. -/
theorem phaseB_configuration_partition (p : ArchitectureProject) :
    (specUnconfigured p ≠ [] → (specUnconfigured p).length = p.services.length →
      (validateB p).filter (fun r => r.category == "Configuration") =
        [{ phase := "B", category := "Configuration", status := "failed",
           message := toString (specUnconfigured p).length ++ " services not containerized",
           details := some ("Configure containers for: " ++
             jsJoin ", " ((specUnconfigured p).map (fun s => s.name))) }])
    ∧ (specUnconfigured p ≠ [] → (specUnconfigured p).length ≠ p.services.length →
      (validateB p).filter (fun r => r.category == "Configuration") =
        [{ phase := "B", category := "Configuration", status := "warning",
           message := toString (specUnconfigured p).length ++ " services not containerized",
           details := some ("Configure containers for: " ++
             jsJoin ", " ((specUnconfigured p).map (fun s => s.name))) }])
    ∧ (specUnconfigured p = [] → p.containerConfigs ≠ [] →
      (validateB p).filter (fun r => r.category == "Configuration") =
        [{ phase := "B", category := "Configuration", status := "passed",
           message := "All services have container configurations",
           details := none }])
    ∧ (∀ s : Service, p.services = [s] → p.containerConfigs = [] →
      validateB p =
        [{ phase := "B", category := "Configuration", status := "failed",
           message := "1 services not containerized",
           details := some ("Configure containers for: " ++ s.name) }]) := by
  refine ⟨?_, ?_, ?_, ?_⟩
  · intro hne heq
    simp only [validateB, specUnconfigured] at hne heq ⊢
    rw [List.filter_append, List.filter_append]
    rw [if_pos (List.length_pos.mpr hne), if_pos heq]
    by_cases hb1 : 0 < (p.containerConfigs.filter (fun c => c.buildType == "single-stage")).length <;>
      by_cases hb2 : 0 < (p.containerConfigs.filter (fun c => c.healthCheck.isNone)).length <;>
      simp [hb1, hb2, List.filter_cons]
  · intro hne hneq
    simp only [validateB, specUnconfigured] at hne hneq ⊢
    rw [List.filter_append, List.filter_append]
    rw [if_pos (List.length_pos.mpr hne), if_neg hneq]
    by_cases hb1 : 0 < (p.containerConfigs.filter (fun c => c.buildType == "single-stage")).length <;>
      by_cases hb2 : 0 < (p.containerConfigs.filter (fun c => c.healthCheck.isNone)).length <;>
      simp [hb1, hb2, List.filter_cons]
  · intro hz hcc
    simp only [validateB, specUnconfigured] at hz ⊢
    rw [List.filter_append, List.filter_append, hz]
    rw [if_neg (by simp), if_pos (List.length_pos.mpr hcc)]
    by_cases hb1 : 0 < (p.containerConfigs.filter (fun c => c.buildType == "single-stage")).length <;>
      by_cases hb2 : 0 < (p.containerConfigs.filter (fun c => c.healthCheck.isNone)).length <;>
      simp [hb1, hb2, List.filter_cons]
  · intro s hs hc
    simp [validateB, hs, hc, jsJoin]
    decide

/-- C6 witness: one service, zero configs — a single failed result. -/
theorem phaseB_configuration_partition_witness :
    validateB { sampleEmptyProject with services := [sampleService "orders" []] } =
      [{ phase := "B", category := "Configuration", status := "failed",
         message := "1 services not containerized",
         details := some ("Configure containers for: " ++ (sampleService "orders" []).name) }] :=
  (phaseB_configuration_partition
      { sampleEmptyProject with services := [sampleService "orders" []] }).2.2.2
    (sampleService "orders" []) rfl rfl

/-! ### C5: circular-dependency scan in phase A -/

/-- C5: for services X depending on Y and Y depending on X, phase-A
validation emits an error naming both services — exactly one error in
total, reported at the second edge in iteration order; a lone one-way
edge emits no error; and a single scan step records the edge key and
emits the error precisely when the reverse edge key was already
recorded. -/
theorem circular_dependency_scan (a b : String) (sa sb : Service)
    (p q : ArchitectureProject)
    (hsa : sa.name = a) (hda : sa.dependencies = [b])
    (hsb : sb.name = b) (hdb : sb.dependencies = [a])
    (hp : p.services = [sa, sb]) (hq : q.services = [sa]) :
    (∃ r ∈ validateFor p (some "A"), r.status = "error"
        ∧ containsSub r.message a = true ∧ containsSub r.message b = true)
    ∧ (validateFor p (some "A")).filter (fun r => r.status == "error") =
        [circularResult b a]
    ∧ (validateFor q (some "A")).filter (fun r => r.status == "error") = []
    ∧ (∀ sname d seen, (scanDeps sname [d] seen).2 = (sname ++ "->" ++ d) :: seen
        ∧ (seen.contains (d ++ "->" ++ sname) = true →
            (scanDeps sname [d] seen).1 = [circularResult sname d])
        ∧ (seen.contains (d ++ "->" ++ sname) = false →
            (scanDeps sname [d] seen).1 = [])) := by
  subst hsa hsb
  have hval : validateFor p (some "A") = validateA p := by simp [validateFor]
  have hvalq : validateFor q (some "A") = validateA q := by simp [validateFor]
  have hfilt : (validateFor p (some "A")).filter (fun r => r.status == "error") =
      [circularResult sb.name sa.name] := by
    rw [hval]
    simp only [validateA, hp, circularResult]
    rw [List.filter_append, List.filter_append, List.filter_append]
    by_cases hbc : p.boundedContexts.length = 0 <;>
      by_cases hA : sa.boundedContext = "" <;>
      by_cases hB : sb.boundedContext = "" <;>
      simp [hbc, hA, hB, hda, hdb, List.filter_cons, scanServices, scanDeps]
  refine ⟨?_, hfilt, ?_, ?_⟩
  · have hmem0 : circularResult sb.name sa.name
        ∈ (validateFor p (some "A")).filter (fun r => r.status == "error") := by
      rw [hfilt]
      exact List.mem_cons_self _ _
    refine ⟨_, List.mem_of_mem_filter hmem0, rfl, ?_, ?_⟩
    · exact containsSub_of_decomp
        ("Circular dependency detected: " ++ sb.name ++ " <-> ") ""
        (by simp [circularResult, strAppend_empty, strAppend_assoc])
    · exact containsSub_of_decomp "Circular dependency detected: "
        (" <-> " ++ sa.name) (by simp [circularResult, strAppend_assoc])
  · rw [hvalq]
    simp only [validateA, hq]
    rw [List.filter_append, List.filter_append, List.filter_append]
    by_cases hbc : q.boundedContexts.length = 0 <;>
      by_cases hA : sa.boundedContext = "" <;>
      simp [hbc, hA, hda, List.filter_cons, scanServices, scanDeps]
  · intro sname d seen
    refine ⟨by simp [scanDeps], ?_, ?_⟩
    · intro hc
      simp [scanDeps, circularResult]
      simpa using hc
    · intro hc
      simp [scanDeps]
      simpa using hc

/-- C5 witness: the concrete two-service cycle X depending on Y and Y
depending on X, and the concrete acyclic one-way variant. -/
theorem circular_dependency_scan_witness :
    (validateFor
        { sampleEmptyProject with
          services := [sampleService "X" ["Y"], sampleService "Y" ["X"]] }
        (some "A")).filter (fun r => r.status == "error") =
      [circularResult "Y" "X"]
    ∧ (validateFor
        { sampleEmptyProject with services := [sampleService "X" ["Y"]] }
        (some "A")).filter (fun r => r.status == "error") = [] := by
  have h := circular_dependency_scan "X" "Y"
    (sampleService "X" ["Y"]) (sampleService "Y" ["X"])
    { sampleEmptyProject with
      services := [sampleService "X" ["Y"], sampleService "Y" ["X"]] }
    { sampleEmptyProject with services := [sampleService "X" ["Y"]] }
    rfl rfl rfl rfl rfl rfl
  exact ⟨h.2.1, h.2.2.1⟩

/-! ### C1: multi-stage Dockerfile and the stage-2 base image -/

/-- C1 counterexample: for the -alpine base image the two chained
replacements cancel, so the generated two-stage Dockerfile contains no
-slim image anywhere — stage 2 does not run from a -slim variant as the
claim requires. -/
theorem multistage_alpine_counterexample :
    sampleAlpineConfig.buildType = "multi-stage"
    ∧ sampleAlpineConfig.baseImage = "node:20-alpine"
    ∧ containsSub (genDockerfile sampleAlpineConfig "web") "-slim" = false
    ∧ stage2Image "node:20-alpine" = "node:20-alpine" := by
  refine ⟨rfl, rfl, ?_, rfl⟩
  decide

/-- C1 (amended): the multi-stage Dockerfile is a two-stage document whose
stage 1 builds FROM the (falsy-defaulted) base image and whose stage 2
runs FROM the image obtained by replacing the first occurrence of
-alpine with -slim and then the first occurrence of -slim with -alpine;
on a plain -slim base this yields an -alpine image, while on a plain
-alpine base the substitution is undone and stage 2 reuses the base
image itself. -/
theorem multistage_two_stage_spec (cfg : ContainerConfig) (name : String)
    (h : cfg.buildType = "multi-stage") :
    (dockerLines cfg name).length = 24
    ∧ (dockerLines cfg name).get? 1 = some "# Stage 1: Build"
    ∧ (dockerLines cfg name).get? 2 = some ("FROM " ++
        (if cfg.baseImage = "" then "node:20-alpine" else cfg.baseImage) ++ " AS builder")
    ∧ (dockerLines cfg name).get? 9 = some "# Stage 2: Production"
    ∧ (dockerLines cfg name).get? 10 = some ("FROM " ++
        stage2Image (if cfg.baseImage = "" then "node:20-alpine" else cfg.baseImage))
    ∧ containsSub (genDockerfile cfg name)
        ("FROM " ++ stage2Image
          (if cfg.baseImage = "" then "node:20-alpine" else cfg.baseImage)) = true
    ∧ stage2Image "node:20-alpine" = "node:20-alpine"
    ∧ stage2Image "node:20-slim" = "node:20-alpine" := by
  refine ⟨?_, ?_, ?_, ?_, ?_, ?_, rfl, rfl⟩ <;>
    first
    | (simp [dockerLines, h])
    | (have hmem : ("FROM " ++ stage2Image
          (if cfg.baseImage = "" then "node:20-alpine" else cfg.baseImage))
          ∈ dockerLines cfg name := by
        simp only [dockerLines, h, if_pos]
        repeat first
        | exact List.mem_cons_self _ _
        | apply List.mem_cons_of_mem
       exact containsSub_jsJoin "\n" hmem)

/-- C1 witness: the amended statement instantiated at the concrete
-alpine multi-stage config. -/
theorem multistage_two_stage_spec_witness :
    (dockerLines sampleAlpineConfig "web").get? 2 =
      some ("FROM " ++
        (if sampleAlpineConfig.baseImage = "" then "node:20-alpine"
         else sampleAlpineConfig.baseImage) ++ " AS builder")
    ∧ stage2Image "node:20-slim" = "node:20-alpine" := by
  have h := multistage_two_stage_spec sampleAlpineConfig "web" rfl
  exact ⟨h.2.2.1, h.2.2.2.2.2.2.2⟩

/-! ### C2: liveness and readiness probe rendering -/

/-- C2 counterexample: with a health-check interval of 30 the rendered
manifest carries periodSeconds 30 only once (on the liveness probe); the
readiness probe keeps the hard-coded periodSeconds 10, so the two probes
do not share the health-check interval as period. -/
theorem probe_period_counterexample :
    sampleHCConfig.healthCheck =
      some { path := "/health", port := 8080, intervalSeconds := 30 }
    ∧ countSub (genK8sManifest sampleHCManifest "web" (some sampleHCConfig))
        "periodSeconds: 30" = 1
    ∧ countSub (genK8sManifest sampleHCManifest "web" (some sampleHCConfig))
        "periodSeconds: 10" = 1
    ∧ containsSub (genK8sManifest sampleHCManifest "web" (some sampleHCConfig))
        ("initialDelaySeconds: 5\n          periodSeconds: 10") = true := by
  refine ⟨rfl, ?_, ?_, ?_⟩ <;> decide

/-- C2 (amended): without a container config or without a health check the
probe hole of the manifest renders empty; with a health check it renders
exactly the liveness probe (initial delay 15, period = interval) followed
by the readiness probe (initial delay 5, fixed period 10), both on the
health-check path and port; concretely, a manifest with a health check
carries exactly one liveness and one readiness block and one without
carries none. -/
theorem probe_rendering_spec (m : K8sManifest) (name : String) :
    (k8sLines m name none).get? 32 = some ""
    ∧ (∀ c : ContainerConfig, c.healthCheck = none →
        (k8sLines m name (some c)).get? 32 = some "")
    ∧ (∀ (c : ContainerConfig) (h : HealthCheck), c.healthCheck = some h →
        (k8sLines m name (some c)).get? 32 = some (
          "        livenessProbe:\n          httpGet:\n            path: " ++
          h.path ++ "\n            port: " ++ toString h.port ++
          "\n          initialDelaySeconds: 15\n          periodSeconds: " ++
          toString h.intervalSeconds ++
          "\n        readinessProbe:\n          httpGet:\n            path: " ++
          h.path ++ "\n            port: " ++ toString h.port ++
          "\n          initialDelaySeconds: 5\n          periodSeconds: 10"))
    ∧ countSub (genK8sManifest sampleHCManifest "web" (some sampleHCConfig))
        "livenessProbe" = 1
    ∧ countSub (genK8sManifest sampleHCManifest "web" (some sampleHCConfig))
        "readinessProbe" = 1
    ∧ countSub (genK8sManifest sampleHCManifest "web" none) "Probe" = 0 := by
  refine ⟨?_, ?_, ?_, by decide, by decide, by decide⟩
  · simp [k8sLines, List.get?]
  · intro c hc
    simp [k8sLines, hc, List.get?]
  · intro c h hc
    simp [k8sLines, hc, List.get?]

/-- C2 witness: the probe hole evaluated on the concrete manifest with and
without the health check. -/
theorem probe_rendering_spec_witness :
    (k8sLines sampleHCManifest "web" (some sampleHCConfig)).get? 32 = some (
      "        livenessProbe:\n          httpGet:\n            path: " ++
      "/health" ++ "\n            port: " ++ toString (8080 : Nat) ++
      "\n          initialDelaySeconds: 15\n          periodSeconds: " ++
      toString (30 : Nat) ++
      "\n        readinessProbe:\n          httpGet:\n            path: " ++
      "/health" ++ "\n            port: " ++ toString (8080 : Nat) ++
      "\n          initialDelaySeconds: 5\n          periodSeconds: 10")
    ∧ (k8sLines sampleHCManifest "web" none).get? 32 = some "" := by
  have h := probe_rendering_spec sampleHCManifest "web"
  exact ⟨h.2.2.1 sampleHCConfig
    { path := "/health", port := 8080, intervalSeconds := 30 } rfl, h.1⟩

/-! ### C4: secret environment variables in the Dockerfile -/

/-- C4 counterexample: a secret with the non-empty value app — the
generated Dockerfile still contains that value as a substring, because
the value coincides with the WORKDIR /app template text. -/
theorem secret_value_substring_counterexample :
    sampleSecretConfig.environmentVariables =
      [{ key := "API_TOKEN", value := "app", isSecret := true }]
    ∧ ("app" : String) ≠ ""
    ∧ containsSub (genDockerfile sampleSecretConfig "api") "app" = true := by
  refine ⟨rfl, by decide, by decide⟩

/-- C4 (amended): every secret entry renders as a comment noting external
management and every non-secret entry as a literal ENV assignment (one
line per entry, input order, by envLine/envBlock); the rendered text does
not depend on secret values at all — erasing them yields byte-identical
output.  The literal claim that a secret value never occurs as a
substring fails only through such coincidental occurrences. -/
theorem secret_redaction_spec (cfg : ContainerConfig) (name : String) :
    genDockerfile
      { cfg with environmentVariables :=
          cfg.environmentVariables.map eraseSecretValue } name
      = genDockerfile cfg name
    ∧ (∀ e ∈ cfg.environmentVariables, e.isSecret = true →
        containsSub (genDockerfile cfg name)
          ("# " ++ e.key ++ " - Set via secrets management") = true)
    ∧ (∀ e ∈ cfg.environmentVariables, e.isSecret = false →
        containsSub (genDockerfile cfg name)
          ("ENV " ++ e.key ++ "=\"" ++ e.value ++ "\"") = true) := by
  have hline : ∀ e, envLine (eraseSecretValue e) = envLine e := by
    intro e
    by_cases hb : e.isSecret <;> simp [envLine, eraseSecretValue, hb]
  have hmap : ∀ l : List EnvVar,
      (l.map eraseSecretValue).map envLine = l.map envLine := by
    intro l
    induction l with
    | nil => rfl
    | cons e t ih => simp [hline e, ih]
  have hblock : envBlock (cfg.environmentVariables.map eraseSecretValue)
      = envBlock cfg.environmentVariables := by
    unfold envBlock
    rw [hmap]
  have hcont : ∀ e ∈ cfg.environmentVariables,
      containsSub (genDockerfile cfg name) (envLine e) = true := by
    intro e he
    have h2 : envLine e ∈ cfg.environmentVariables.map envLine :=
      List.mem_map_of_mem _ he
    have h3 : containsSub (envBlock cfg.environmentVariables) (envLine e) = true :=
      containsSub_jsJoin "\n" h2
    have h4 : envBlock cfg.environmentVariables ∈ dockerLines cfg name := by
      by_cases hb : cfg.buildType = "multi-stage" <;>
        · simp only [dockerLines, hb, if_true, if_false, reduceIte]
          repeat first
          | exact List.mem_cons_self _ _
          | apply List.mem_cons_of_mem
    exact containsSub_trans (containsSub_jsJoin "\n" h4) h3
  refine ⟨?_, ?_, ?_⟩
  · simp only [genDockerfile, dockerLines]
    by_cases hb : cfg.buildType = "multi-stage" <;> simp [hb, hblock]
  · intro e he hsec
    have h1 : envLine e = "# " ++ e.key ++ " - Set via secrets management" := by
      simp [envLine, hsec]
    rw [← h1]
    exact hcont e he
  · intro e he hsec
    have h1 : envLine e = "ENV " ++ e.key ++ "=\"" ++ e.value ++ "\"" := by
      simp [envLine, hsec]
    rw [← h1]
    exact hcont e he

/-- C4 witness: erasing the secret value of the concrete config leaves the
generated text unchanged, and the secret renders as its comment line. -/
theorem secret_redaction_spec_witness :
    genDockerfile
      { sampleSecretConfig with environmentVariables :=
          sampleSecretConfig.environmentVariables.map eraseSecretValue } "api"
      = genDockerfile sampleSecretConfig "api"
    ∧ containsSub (genDockerfile sampleSecretConfig "api")
        ("# " ++ "API_TOKEN" ++ " - Set via secrets management") = true := by
  have h := secret_redaction_spec sampleSecretConfig "api"
  exact ⟨h.1, h.2.1 { key := "API_TOKEN", value := "app", isSecret := true }
    (List.mem_cons_self _ _) rfl⟩
